import Mathlib

/-!
Verification of the core logic of the "vertex" SillyTavern extension
(Vertex Image Generation / Nano Banana Pro).

The development shallowly embeds the two source variants:
  - `src/index.js` (Vertex Imagen variant): `loadSettings`, `buildPrompt`,
    `generateViaProxy`, `generateDirectApi`, `addToGallery`,
    `deleteGalleryImage`;
  - `src/unnamed/part_000` (Gemini "Nano Banana" variant): `buildMessages`,
    `generateImageFromPrompt` (response parsing), and the identical gallery
    operations.

JavaScript objects are embedded as Lean structures with `Option` fields for
possibly-absent (`undefined`) properties; JavaScript string truthiness is
made explicit (the empty string is falsy); thrown `Error` objects are
embedded as `Except String` with the exact message strings of the source.
-/

deriving instance DecidableEq for Except

/-- A gallery entry as created by `addToGallery` in both variants:
`{imageData, prompt (truncated), timestamp, messageId}`. -/
structure GalleryEntry where
  imageData : String
  prompt : String
  timestamp : Nat
  messageId : Option Int
deriving DecidableEq

/-- The extension settings record. This is the union of the fields used by
the two variants (the `index.js` variant's `defaultSettings` is the
superset). The source field `aspect_ratio` is embedded as `aspect`; the
`gallery` field is `Option` because a fresh settings object may lack it
(`undefined`/falsy in the source). -/
structure Settings where
  model : String
  aspect : String
  number_of_images : Nat
  use_avatars : Bool
  include_descriptions : Bool
  negative_prompt : String
  system_instruction : String
  gallery : Option (List GalleryEntry)
  project_id : String
  location : String
  use_direct_api : Bool
deriving DecidableEq

/-- `MAX_GALLERY_SIZE` from both source files. -/
def MAX_GALLERY_SIZE : Nat := 50

/-- `addToGallery(imageData, prompt, messageId)` from both variants:
initialize `settings.gallery` to `[]` when falsy, `unshift` the new entry
(prompt truncated by `prompt.substring(0, 200)`, timestamp `Date.now()`
passed here as `now`), then `slice(0, MAX_GALLERY_SIZE)` when the length
exceeds `MAX_GALLERY_SIZE`. -/
def addToGallery (settings : Settings) (imageData prompt : String)
    (messageId : Option Int) (now : Nat) : Settings :=
  let g0 : List GalleryEntry := settings.gallery.getD []
  let g1 : List GalleryEntry :=
    { imageData := imageData
      prompt := prompt.take 200
      timestamp := now
      messageId := messageId } :: g0
  let g2 : List GalleryEntry :=
    if g1.length > MAX_GALLERY_SIZE then g1.take MAX_GALLERY_SIZE else g1
  { settings with gallery := some g2 }

/-- JavaScript `Array.prototype.splice(index, 1)` on a list: the start
position is clamped as `max(length + index, 0)` for a negative `index` and
`min(index, length)` otherwise, and one element (if any) is removed there. -/
def spliceRemoveOne {α : Type} (l : List α) (index : Int) : List α :=
  let len : Int := l.length
  let start : Nat := (if index < 0 then max (len + index) 0 else min index len).toNat
  l.take start ++ l.drop (start + 1)

/-- `deleteGalleryImage(index)` from both variants, acting on the gallery
list: `settings.gallery.splice(index, 1)`. -/
def deleteGalleryImage (gallery : List GalleryEntry) (index : Int) : List GalleryEntry :=
  spliceRemoveOne gallery index

/-- The keys of the fixed `defaultSettings` map of `src/index.js`.
`aspect` embeds the source key `aspect_ratio`. -/
inductive SettingsKey where
  | model
  | aspect
  | number_of_images
  | use_avatars
  | include_descriptions
  | negative_prompt
  | system_instruction
  | gallery
  | project_id
  | location
  | use_direct_api
deriving DecidableEq

/-- A JavaScript value as stored in the settings record. -/
inductive JsValue where
  | vstr (s : String)
  | vbool (b : Bool)
  | vnum (n : Int)
  | vlist (l : List GalleryEntry)
deriving DecidableEq

/-- The `defaultSettings` map of `src/index.js`, in source order. -/
def defaultSettingsList : List (SettingsKey × JsValue) :=
  [ (SettingsKey.model, JsValue.vstr "imagen-3.0-generate-002"),
    (SettingsKey.aspect, JsValue.vstr "1:1"),
    (SettingsKey.number_of_images, JsValue.vnum 1),
    (SettingsKey.use_avatars, JsValue.vbool false),
    (SettingsKey.include_descriptions, JsValue.vbool false),
    (SettingsKey.negative_prompt, JsValue.vstr ""),
    (SettingsKey.system_instruction, JsValue.vstr "You are an image generation assistant. When reference images are provided, they represent the characters in the story. Generate an illustration that depicts the scene described in the prompt while maintaining the art style and appearance of the reference characters."),
    (SettingsKey.gallery, JsValue.vlist []),
    (SettingsKey.project_id, JsValue.vstr ""),
    (SettingsKey.location, JsValue.vstr "us-central1"),
    (SettingsKey.use_direct_api, JsValue.vbool true) ]

/-- One step of the `loadSettings` loop: for the default entry `kv`, set
`acc[kv.1] = kv.2` when `acc[kv.1] === undefined`, leaving every other key
unchanged. -/
def assignMissing (acc : SettingsKey → Option JsValue)
    (kv : SettingsKey × JsValue) : SettingsKey → Option JsValue :=
  fun k => if k = kv.1 then some ((acc kv.1).getD kv.2) else acc k

/-- The default back-fill loop of `loadSettings` from `src/index.js` (the
`part_000` variant is the same loop over a smaller default map), applied to
the prior partial settings record. -/
def loadSettings (prior : SettingsKey → Option JsValue) : SettingsKey → Option JsValue :=
  defaultSettingsList.foldl assignMissing prior

/-- The result of `getCharacterDescriptions()` (identical in both
variants): every field defaulted to a string (possibly empty). -/
structure Descriptions where
  user_name : String
  user_persona : String
  char_name : String
  char_description : String
  char_scenario : String
deriving DecidableEq

/-- An avatar fetched by `getUserAvatar`/`getCharacterAvatar`; `none`
models any fetch failure (both functions return `null` then). -/
structure AvatarData where
  mimeType : String
  data : String
  name : String
deriving DecidableEq

/-- A content part of the chat-completion request built by `buildMessages`
in `part_000`: `{type:'text', text}` or `{type:'image_url', image_url:{url}}`. -/
inductive ContentPart where
  | text (t : String)
  | imageUrl (url : String)
deriving DecidableEq

/-- A message of the request built by `buildMessages`. -/
structure Message where
  role : String
  content : List ContentPart
deriving DecidableEq

/-- The character/persona description block shared by `buildPrompt`
(`index.js`) and `buildMessages` (`part_000`): each non-empty field is
emitted with its labeled header followed by a blank line. -/
def descText (d : Descriptions) : String :=
  (if d.user_persona ≠ "" then
      "[" ++ d.user_name ++ " (User) Description]: " ++ d.user_persona ++ "\n\n"
    else "") ++
  (if d.char_description ≠ "" then
      "[" ++ d.char_name ++ " (Character) Description]: " ++ d.char_description ++ "\n\n"
    else "") ++
  (if d.char_scenario ≠ "" then
      "[Current Scenario]: " ++ d.char_scenario ++ "\n\n"
    else "")

/-- The sender wrapping shared by both builders: `[Message from S]: P` when
the sender is truthy (a non-empty string), the bare prompt otherwise. -/
def senderWrapped (prompt : String) (sender : Option String) : String :=
  match sender with
  | some snd => if snd = "" then prompt else "[Message from " ++ snd ++ "]: " ++ prompt
  | none => prompt

/-- The label/inline-image part pair pushed by `buildMessages` for one
fetched avatar (empty when the fetch failed and the avatar is `null`). -/
def avatarParts (label : String) (a : Option AvatarData) : List ContentPart :=
  match a with
  | some av =>
      [ ContentPart.text ("[Reference image for " ++ label ++ " - " ++ av.name ++ "]"),
        ContentPart.imageUrl ("data:" ++ av.mimeType ++ ";base64," ++ av.data) ]
  | none => []

/-- `buildMessages(prompt, sender)` from `part_000`: system instruction
part when non-empty, then the trimmed description block when
`include_descriptions` is set and the block is non-empty, then the
sender-wrapped prompt, then (when `use_avatars` is set) the character and
user avatar reference pairs; all wrapped in one user-role message. -/
def buildMessages (prompt : String) (sender : Option String) (settings : Settings)
    (d : Descriptions) (charAvatar userAvatar : Option AvatarData) : List Message :=
  let parts0 : List ContentPart :=
    if settings.system_instruction ≠ "" then
      [ContentPart.text settings.system_instruction]
    else []
  let parts1 : List ContentPart :=
    if settings.include_descriptions then
      (if descText d ≠ "" then parts0 ++ [ContentPart.text (descText d).trim] else parts0)
    else parts0
  let parts2 : List ContentPart := parts1 ++ [ContentPart.text (senderWrapped prompt sender)]
  let parts3 : List ContentPart :=
    if settings.use_avatars then
      parts2 ++ avatarParts "\x7b\x7bchar\x7d\x7d" charAvatar
             ++ avatarParts "\x7b\x7buser\x7d\x7d" userAvatar
    else parts2
  [{ role := "user", content := parts3 }]

/-- `buildPrompt(prompt, sender)` from `src/index.js`: the flat
concatenation of the system instruction (followed by a blank line) when
non-empty, the description block when `include_descriptions` is set, and
the sender-wrapped prompt. -/
def buildPrompt (prompt : String) (sender : Option String) (settings : Settings)
    (d : Descriptions) : String :=
  (if settings.system_instruction ≠ "" then settings.system_instruction ++ "\n\n" else "") ++
  (if settings.include_descriptions then descText d else "") ++
  senderWrapped prompt sender

/-- JavaScript `a || d` on a possibly-absent string: the default is taken
when the field is `undefined` or the empty string (falsy). -/
def jsOr (o : Option String) (d : String) : String :=
  match o with
  | some s => if s = "" then d else s
  | none => d

/-- `inlineData` of a response part: `{data, mimeType}`. -/
structure InlineData where
  data : Option String
  mimeType : Option String
deriving DecidableEq

/-- An entry of `responseContent.parts[]`. -/
structure RPart where
  inlineData : Option InlineData
deriving DecidableEq

/-- The `responseContent` envelope. -/
structure ResponseContent where
  parts : Option (List RPart)
deriving DecidableEq

/-- An entry of `predictions[]` (Vertex predict-style). -/
structure Prediction where
  bytesBase64Encoded : Option String
  mimeType : Option String
deriving DecidableEq

/-- The `image_url` object of a chat-completion content part. -/
structure ImageUrl where
  url : String
deriving DecidableEq

/-- An entry of an array-valued `choices[0].message.content`. -/
structure CPart where
  type : String
  image_url : Option ImageUrl
deriving DecidableEq

/-- `choices[0].message.content`: either a plain string or an array of
content parts. -/
inductive MsgContent where
  | str (s : String)
  | arr (l : List CPart)
deriving DecidableEq

/-- The `message` object of a choice. -/
structure Msg where
  content : Option MsgContent
deriving DecidableEq

/-- An entry of `choices[]`. -/
structure Choice where
  message : Option Msg
deriving DecidableEq

/-- The parsed JSON body of a successful generation response, restricted to
the fields the two variants inspect. -/
structure ResponseBody where
  predictions : Option (List Prediction)
  responseContent : Option ResponseContent
  choices : Option (List Choice)
deriving DecidableEq

/-- A successful extraction result `{imageData, mimeType}`. -/
structure GenerationResult where
  imageData : String
  mimeType : String
deriving DecidableEq

/-- The message of the `throw` at the end of `generateViaProxy`
(`index.js`) and `generateImageFromPrompt` (`part_000`). -/
def noImageApiMsg : String := "No image was returned by the API"

/-- The message of the `throw` at the end of `generateDirectApi`. -/
def vertexNoImageMsg : String := "No image was returned by Vertex AI"

/-- The message of the text-instead-of-image `throw` in `part_000`. -/
def textInsteadMsg : String :=
  "Model returned text instead of image. Try a different prompt or model."

/-- The message of the missing-project-id `throw` in `generateDirectApi`. -/
def projectIdRequiredMsg : String :=
  "Project ID is required for direct Vertex AI API calls. Please configure it in settings."

/-- The image a `predictions[]` entry yields inside the collection loop of
`generateViaProxy`: present exactly when `bytesBase64Encoded` is truthy,
with `mimeType || image/png`. -/
def predToImage (p : Prediction) : Option GenerationResult :=
  match p.bytesBase64Encoded with
  | some b => if b = "" then none else some { imageData := b, mimeType := jsOr p.mimeType "image/png" }
  | none => none

/-- `images[0]` of the `predictions[]` collection loop of
`generateViaProxy`, or `none` when the field is absent or no entry has a
truthy `bytesBase64Encoded`. -/
def firstPredImage (r : ResponseBody) : Option GenerationResult :=
  match r.predictions with
  | some preds => (preds.filterMap predToImage).head?
  | none => none

/-- The `responseContent.parts` scan shared by `generateViaProxy` and
`generateImageFromPrompt`: the first part with truthy `inlineData.data`,
with `inlineData.mimeType || image/png`. -/
def firstInline : List RPart → Option GenerationResult
  | [] => none
  | p :: rest =>
    match p.inlineData with
    | some idata =>
      match idata.data with
      | some d => if d = "" then firstInline rest
          else some { imageData := d, mimeType := jsOr idata.mimeType "image/png" }
      | none => firstInline rest
    | none => firstInline rest

/-- The `responseContent?.parts` extraction of both variants. -/
def respContentExtract (r : ResponseBody) : Option GenerationResult :=
  match r.responseContent with
  | some rc =>
    match rc.parts with
    | some parts => firstInline parts
    | none => none
  | none => none

/-- `choices?.[0]?.message?.content` of the response body. -/
def choicesContent (r : ResponseBody) : Option MsgContent :=
  match r.choices with
  | some (c :: _) =>
    match c.message with
    | some m => m.content
    | none => none
  | _ => none

/-- The JavaScript regular-expression dot: any character except a line
terminator. -/
def jsDotChar (c : Char) : Bool :=
  c ≠ '\n' && c ≠ '\r' && c ≠ '\u2028' && c ≠ '\u2029'

/-- The `data:` URI parse of `part_000`: `url.startsWith('data:')` followed
by the match `^data:([^;]+);base64,(.+)$`, returning (MIME type, payload). -/
def dataUriMatch (url : String) : Option (String × String) :=
  if url.startsWith "data:" then
    let rest := (url.drop 5).toList
    let mime := rest.takeWhile (fun c => c ≠ ';')
    let after := rest.dropWhile (fun c => c ≠ ';')
    if mime.isEmpty then none
    else if List.isPrefixOf (";base64,".toList) after then
      let payload := after.drop 8
      if payload.isEmpty then none
      else if payload.all jsDotChar then some (String.mk mime, String.mk payload)
      else none
    else none
  else none

/-- The array-content loop of `generateImageFromPrompt`: the first
`image_url`-typed part whose truthy URL parses as a base64 `data:` URI;
parts whose URL fails the parse are skipped. -/
def firstImageUrl : List CPart → Option GenerationResult
  | [] => none
  | p :: rest =>
    match p.image_url with
    | some iu =>
      if p.type = "image_url" ∧ iu.url ≠ "" then
        match dataUriMatch iu.url with
        | some mp => some { imageData := mp.2, mimeType := mp.1 }
        | none => firstImageUrl rest
      else firstImageUrl rest
    | none => firstImageUrl rest

/-- The chat-completion array extraction of `generateImageFromPrompt`:
applies only when `choices[0].message.content` is an array. -/
def choicesArrayExtract (r : ResponseBody) : Option GenerationResult :=
  match choicesContent r with
  | some (MsgContent.arr parts) => firstImageUrl parts
  | _ => none

/-- The successful-response parsing of `generateViaProxy` (`index.js`):
`predictions[]` is scanned first and the first collected image returned;
otherwise `responseContent.parts` is scanned; otherwise the no-image error
is thrown. `choices` is never inspected. -/
def generateViaProxyParse (r : ResponseBody) : Except String GenerationResult :=
  match firstPredImage r with
  | some img => Except.ok img
  | none =>
    match respContentExtract r with
    | some img => Except.ok img
    | none => Except.error noImageApiMsg

/-- The successful-response parsing of `generateImageFromPrompt`
(`part_000`): `responseContent.parts` first, then an array-valued
`choices[0].message.content`, then the plain-text check (throwing the fixed
text-instead-of-image message), then the no-image error. `predictions` is
never inspected. -/
def generateImageParse (r : ResponseBody) : Except String GenerationResult :=
  match respContentExtract r with
  | some img => Except.ok img
  | none =>
    match choicesArrayExtract r with
    | some img => Except.ok img
    | none =>
      match choicesContent r with
      | some (MsgContent.str s) =>
          if s ≠ "" then Except.error textInsteadMsg else Except.error noImageApiMsg
      | _ => Except.error noImageApiMsg

/-- The `predictions[0]`-only parsing of `generateDirectApi` (`index.js`):
only the first entry is examined; defaults `mimeType || image/png`. -/
def generateDirectApiParse (r : ResponseBody) : Except String GenerationResult :=
  match r.predictions with
  | some (p :: _) =>
    match p.bytesBase64Encoded with
    | some b =>
        if b = "" then Except.error vertexNoImageMsg
        else Except.ok { imageData := b, mimeType := jsOr p.mimeType "image/png" }
    | none => Except.error vertexNoImageMsg
  | _ => Except.error vertexNoImageMsg

/-- `generateDirectApi` up to response parsing: the missing-project-id
check precedes the `fetch`. The first component records whether the HTTP
request was issued (the source throws before the `fetch` when
`settings.project_id` is falsy); `response` is the parsed body of a
successful request. -/
def generateDirectApi (settings : Settings) (response : ResponseBody) :
    Bool × Except String GenerationResult :=
  if settings.project_id = "" then
    (false, Except.error projectIdRequiredMsg)
  else
    (true, generateDirectApiParse response)

/-- The predicate deciding whether a `predictions[]` entry yields an image
in `generateViaProxy` (truthy `bytesBase64Encoded`). -/
def predHasImage (p : Prediction) : Bool :=
  match p.bytesBase64Encoded with
  | some b => b ≠ ""
  | none => false

/-- A concrete settings record: uninitialized gallery, empty project id,
description and avatar toggles off, system instruction `"SYS"`. -/
def sampleSettings : Settings :=
  { model := "imagen-3.0-generate-002", aspect := "1:1", number_of_images := 1,
    use_avatars := false, include_descriptions := false, negative_prompt := "",
    system_instruction := "SYS", gallery := none, project_id := "",
    location := "us-central1", use_direct_api := true }

/-- A concrete description context with every field non-empty. -/
def fullDescriptions : Descriptions :=
  { user_name := "Alice", user_persona := "A brave adventurer",
    char_name := "Bob", char_description := "A tall wizard",
    char_scenario := "A dark forest" }

/-- A description context with every field empty. -/
def emptyDescriptions : Descriptions :=
  { user_name := "", user_persona := "", char_name := "",
    char_description := "", char_scenario := "" }

/-- A concrete gallery entry. -/
def cexEntry : GalleryEntry :=
  { imageData := "img", prompt := "p", timestamp := 0, messageId := none }

/-- A prior partial settings record with only `model` set. -/
def priorEx : SettingsKey → Option JsValue :=
  fun k => match k with
  | SettingsKey.model => some (JsValue.vstr "custom-model")
  | _ => none

/-- A response body carrying an image in both the `predictions[]` shape
(payload `"P"`) and the `responseContent.parts` shape (payload `"R"`). -/
def c1Body : ResponseBody :=
  { predictions := some [{ bytesBase64Encoded := some "P", mimeType := none }],
    responseContent := some { parts := some [{ inlineData := some { data := some "R", mimeType := none } }] },
    choices := none }

/-- The spec example body `{predictions:[{bytesBase64Encoded:"Y"}]}`. -/
def c5GoodBody : ResponseBody :=
  { predictions := some [{ bytesBase64Encoded := some "Y", mimeType := none }],
    responseContent := none, choices := none }

/-- A body whose `predictions[0]` has no image but `predictions[1]` does. -/
def c5SkipBody : ResponseBody :=
  { predictions := some [{ bytesBase64Encoded := none, mimeType := none },
                         { bytesBase64Encoded := some "Y", mimeType := none }],
    responseContent := none, choices := none }

/-- A body whose only content is a plain-text `choices[0].message.content`. -/
def c6TextBody : ResponseBody :=
  { predictions := none, responseContent := none,
    choices := some [{ message := some { content := some (MsgContent.str "Sorry, I cannot do that") } }] }

/-- As `c6TextBody` with a different text. -/
def c6TextBodyB : ResponseBody :=
  { predictions := none, responseContent := none,
    choices := some [{ message := some { content := some (MsgContent.str "a completely different reply") } }] }

/-- A body with none of the recognized fields. -/
def emptyBody : ResponseBody :=
  { predictions := none, responseContent := none, choices := none }

theorem foldl_assignMissing_preserve (ds : List (SettingsKey × JsValue))
    (acc : SettingsKey → Option JsValue) (k : SettingsKey) (v : JsValue)
    (h : acc k = some v) : (ds.foldl assignMissing acc) k = some v := by
  induction ds generalizing acc with
  | nil => simpa using h
  | cons kv ds ih =>
    rw [List.foldl_cons]
    apply ih
    unfold assignMissing
    by_cases hk : k = kv.1
    · subst hk; simp [h]
    · simp [hk, h]

theorem foldl_assignMissing_mem (ds : List (SettingsKey × JsValue))
    (acc : SettingsKey → Option JsValue) (k : SettingsKey) (v : JsValue)
    (h : (k, v) ∈ ds) : ((ds.foldl assignMissing acc) k).isSome := by
  induction ds generalizing acc with
  | nil => cases h
  | cons kv ds ih =>
    rw [List.foldl_cons]
    rcases List.mem_cons.mp h with h1 | h2
    · have hk : k = kv.1 := by rw [← h1]
      have hset : assignMissing acc kv k = some ((acc kv.1).getD kv.2) := by
        unfold assignMissing; rw [if_pos hk]
      rw [foldl_assignMissing_preserve ds _ k _ hset]
      rfl
    · exact ih _ h2

theorem filterMap_predToImage_head (preds : List Prediction) :
    (preds.filterMap predToImage).head? =
      (preds.find? predHasImage).map
        (fun p => { imageData := p.bytesBase64Encoded.getD "",
                    mimeType := jsOr p.mimeType "image/png" }) := by
  induction preds with
  | nil => rfl
  | cons p ps ih =>
    by_cases hp : predHasImage p = true
    · rw [List.find?_cons_of_pos _ hp]
      unfold predHasImage at hp
      match hb : p.bytesBase64Encoded with
      | some b =>
        rw [hb] at hp
        simp only [ne_eq, decide_eq_true_eq] at hp
        simp [List.filterMap_cons, predToImage, hb, hp]
      | none => rw [hb] at hp; simp at hp
    · rw [List.find?_cons_of_neg _ hp]
      unfold predHasImage at hp
      have hnone : predToImage p = none := by
        unfold predToImage
        match hb : p.bytesBase64Encoded with
        | some b =>
          rw [hb] at hp
          simp only [ne_eq, decide_eq_true_eq] at hp
          simp at hp
          simp [hp]
        | none => rfl
      rw [List.filterMap_cons, hnone]
      exact ih

/-- Claim C1 (amended): the proxy variant `generateViaProxy` attempts
`predictions[]` first and `responseContent.parts[]` second (never
`choices`), while the Gemini variant `generateImageFromPrompt` attempts
`responseContent.parts[]` first and `choices[0].message.content[]` second
(never `predictions`); each stops at the first match. Hence for every body
containing both a `predictions[]` image and a `responseContent.parts`
image, `generateViaProxy` returns the predictions image and
`generateImageFromPrompt` returns the `responseContent.parts` image. -/
theorem generateClient_shape_priority (r : ResponseBody) (imgP imgR : GenerationResult)
    (hP : firstPredImage r = some imgP) (hR : respContentExtract r = some imgR) :
    generateViaProxyParse r = Except.ok imgP ∧ generateImageParse r = Except.ok imgR := by
  constructor
  · simp [generateViaProxyParse, hP]
  · simp [generateImageParse, hR]

/-- Witness for C1: on the concrete body carrying both shapes, the proxy
parser returns the predictions payload `"P"` and the Gemini parser the
`responseContent` payload `"R"`. -/
theorem generateClient_shape_priority_witness :
    generateViaProxyParse c1Body = Except.ok { imageData := "P", mimeType := "image/png" } ∧
    generateImageParse c1Body = Except.ok { imageData := "R", mimeType := "image/png" } :=
  generateClient_shape_priority c1Body
    { imageData := "P", mimeType := "image/png" }
    { imageData := "R", mimeType := "image/png" } rfl rfl

/-- Counterexample for C1 as stated: `c1Body` contains both a
`responseContent.parts` image (`"R"`) and a `predictions[]` image (`"P"`),
yet `generateViaProxy` returns the predictions image, not the
`responseContent.parts` one. -/
theorem generateClient_shape_priority_cex :
    generateViaProxyParse c1Body = Except.ok { imageData := "P", mimeType := "image/png" } ∧
    generateViaProxyParse c1Body ≠ Except.ok { imageData := "R", mimeType := "image/png" } :=
  ⟨rfl, by decide⟩

/-- Claim C2: after any `addToGallery` call the gallery holds at most
`MAX_GALLERY_SIZE = 50` entries, the new entry (with the prompt truncated
to its first 200 characters and the supplied timestamp) sits at index 0. -/
theorem addToGallery_bounded_newest_first (settings : Settings) (imageData prompt : String)
    (messageId : Option Int) (now : Nat) :
    ∃ g : List GalleryEntry,
      (addToGallery settings imageData prompt messageId now).gallery = some g ∧
      g.length ≤ MAX_GALLERY_SIZE ∧
      g.head? = some { imageData := imageData, prompt := prompt.take 200,
                       timestamp := now, messageId := messageId } := by
  simp only [addToGallery]
  refine ⟨_, rfl, ?_, ?_⟩
  · split
    · simp
    · next h => omega
  · split
    · show ((_ :: _).take (49 + 1)).head? = _
      rw [List.take_succ_cons]
      rfl
    · rfl

/-- Claim C3: for every prior partial settings record, after the
`loadSettings` back-fill every key of the fixed default map is present, and
every key that already had a value keeps that value. -/
theorem loadSettings_backfills_and_preserves (prior : SettingsKey → Option JsValue)
    (k : SettingsKey) :
    (∀ v, (k, v) ∈ defaultSettingsList → (loadSettings prior k).isSome) ∧
    (∀ v, prior k = some v → loadSettings prior k = some v) := by
  constructor
  · intro v hv; exact foldl_assignMissing_mem _ _ _ _ hv
  · intro v hv; exact foldl_assignMissing_preserve _ _ _ _ hv

/-- Witness for C3: starting from a prior record with only `model` set, the
defaulted key `location` is present and the prior `model` value survives. -/
theorem loadSettings_backfills_and_preserves_witness :
    (loadSettings priorEx SettingsKey.location).isSome = true ∧
    loadSettings priorEx SettingsKey.model = some (JsValue.vstr "custom-model") :=
  ⟨(loadSettings_backfills_and_preserves priorEx SettingsKey.location).1
      (JsValue.vstr "us-central1") (by simp [defaultSettingsList]),
   (loadSettings_backfills_and_preserves priorEx SettingsKey.model).2
      (JsValue.vstr "custom-model") rfl⟩

/-- Claim C4 (amended): `deleteGalleryImage(index)` leaves the gallery
unchanged for every `index ≥ length`; a negative `index`, however, is
interpreted by `splice` relative to the end (clamped at 0), so `index = -1`
removes the last entry instead of being a no-op. The operation never
throws on a gallery list. -/
theorem deleteGalleryImage_out_of_range (g : List GalleryEntry) (index : Int)
    (h : (g.length : Int) ≤ index) :
    deleteGalleryImage g index = g ∧ deleteGalleryImage g (-1) = g.dropLast := by
  constructor
  · simp only [deleteGalleryImage, spliceRemoveOne]
    have h0 : ¬ index < 0 := by omega
    rw [if_neg h0]
    have h1 : (min index (g.length : Int)).toNat = g.length := by omega
    rw [h1, List.take_length]
    have h2 : g.drop (g.length + 1) = [] := by
      apply List.drop_eq_nil_of_le; omega
    rw [h2, List.append_nil]
  · simp only [deleteGalleryImage, spliceRemoveOne]
    have h1 : (if (-1 : Int) < 0 then max ((g.length : Int) + (-1)) 0
        else min (-1) (g.length : Int)).toNat = g.length - 1 := by
      rw [if_pos (by omega)]; omega
    rw [h1]
    cases g with
    | nil => rfl
    | cons a as => simp [List.dropLast_eq_take]

/-- Witness for C4 (amended): deleting at index 5 from a one-entry gallery
is a no-op, while index -1 removes the last (only) entry. -/
theorem deleteGalleryImage_out_of_range_witness :
    deleteGalleryImage [cexEntry] 5 = [cexEntry] ∧
    deleteGalleryImage [cexEntry] (-1) = [cexEntry].dropLast :=
  deleteGalleryImage_out_of_range [cexEntry] 5 (by decide)

/-- Counterexample for C4 as stated: the index `-1` lies outside
`[0, length)` yet the delete operation does change a one-entry gallery
(it empties it). -/
theorem deleteGalleryImage_negative_cex :
    deleteGalleryImage [cexEntry] (-1) = [] ∧
    deleteGalleryImage [cexEntry] (-1) ≠ [cexEntry] :=
  ⟨rfl, by decide⟩

/-- Claim C5 (amended): `generateViaProxy` returns the first `predictions[]`
entry with a truthy base64 image field, with the entry's declared MIME type
defaulting to `image/png`; `generateDirectApi`, however, examines only
`predictions[0]` and fails with the no-image error whenever that first
entry lacks the field, even if a later entry carries one. In particular
`{predictions:[{bytesBase64Encoded:"Y"}]}` yields
`{imageData:"Y", mimeType:"image/png"}`. -/
theorem predictions_extraction (r : ResponseBody) (preds : List Prediction) (p : Prediction)
    (hp : r.predictions = some preds) (hf : preds.find? predHasImage = some p) :
    generateViaProxyParse r =
      Except.ok { imageData := p.bytesBase64Encoded.getD "",
                  mimeType := jsOr p.mimeType "image/png" } ∧
    (∀ q qs, preds = q :: qs → predHasImage q = false →
        generateDirectApiParse r = Except.error vertexNoImageMsg) := by
  constructor
  · have h1 : firstPredImage r =
        some (⟨p.bytesBase64Encoded.getD "", jsOr p.mimeType "image/png"⟩ : GenerationResult) := by
      unfold firstPredImage
      rw [hp]
      show (preds.filterMap predToImage).head? = _
      rw [filterMap_predToImage_head, hf]
      rfl
    simp [generateViaProxyParse, h1]
  · intro q qs hqs hq
    subst hqs
    unfold generateDirectApiParse
    rw [hp]
    unfold predHasImage at hq
    match hb : q.bytesBase64Encoded with
    | some b =>
      rw [hb] at hq
      simp only [ne_eq, decide_eq_true_eq] at hq
      simp at hq
      simp [hb, hq]
    | none => simp [hb]

/-- Witness for C5 (amended): the spec example
`{predictions:[{bytesBase64Encoded:"Y"}]}` produces
`{imageData:"Y", mimeType:"image/png"}` through the proxy parser. -/
theorem predictions_extraction_witness :
    generateViaProxyParse c5GoodBody =
      Except.ok { imageData := "Y", mimeType := "image/png" } :=
  (predictions_extraction c5GoodBody
    [{ bytesBase64Encoded := some "Y", mimeType := none }]
    { bytesBase64Encoded := some "Y", mimeType := none } rfl rfl).1

/-- Counterexample for C5 as stated: `c5SkipBody.predictions` contains an
entry with a base64 image field (`"Y"` at index 1), yet `generateDirectApi`
fails with the no-image error instead of returning it. -/
theorem predictions_extraction_cex :
    generateDirectApiParse c5SkipBody = Except.error vertexNoImageMsg ∧
    generateDirectApiParse c5SkipBody ≠
      Except.ok { imageData := "Y", mimeType := "image/png" } :=
  ⟨rfl, by decide⟩

/-- Claim C6 (amended): only the Gemini variant `generateImageFromPrompt`
performs the text check: when no image is recognized and
`choices[0].message.content` is a plain non-empty string it fails with the
fixed text-instead-of-image message (the text preview is only logged, not
carried in the error); the proxy variant `generateViaProxy` never inspects
`choices` and fails with the generic no-image error on such bodies. -/
theorem textInsteadOfImage_handling (r : ResponseBody) (s : String)
    (h1 : respContentExtract r = none)
    (h2 : choicesContent r = some (MsgContent.str s))
    (h3 : s ≠ "") :
    generateImageParse r = Except.error textInsteadMsg ∧
    (firstPredImage r = none → generateViaProxyParse r = Except.error noImageApiMsg) := by
  constructor
  · simp [generateImageParse, h1, choicesArrayExtract, h2, h3]
  · intro h4
    simp [generateViaProxyParse, h4, h1]

/-- Witness for C6 (amended): on the concrete plain-text body the Gemini
parser fails with the text-instead-of-image message and the proxy parser
with the no-image message. -/
theorem textInsteadOfImage_handling_witness :
    generateImageParse c6TextBody = Except.error textInsteadMsg ∧
    generateViaProxyParse c6TextBody = Except.error noImageApiMsg :=
  ⟨(textInsteadOfImage_handling c6TextBody "Sorry, I cannot do that" rfl rfl (by decide)).1,
   (textInsteadOfImage_handling c6TextBody "Sorry, I cannot do that" rfl rfl (by decide)).2 rfl⟩

/-- Counterexample for C6 as stated: on a plain-text body the proxy variant
fails with the generic no-image message, not the text-instead-of-image
kind; and the Gemini variant's error is the same fixed message for two
different texts, so it carries no preview of the text. -/
theorem textInsteadOfImage_handling_cex :
    generateViaProxyParse c6TextBody = Except.error noImageApiMsg ∧
    generateViaProxyParse c6TextBody ≠ Except.error textInsteadMsg ∧
    generateImageParse c6TextBody = Except.error textInsteadMsg ∧
    generateImageParse c6TextBodyB = generateImageParse c6TextBody :=
  ⟨rfl, by decide, rfl, rfl⟩

/-- Claim C7: for scene text `"A hero stands on a cliff"`, sender `null`,
`include_descriptions = false` and `use_avatars = false`, `buildMessages`
produces exactly the system-instruction text part (present iff the setting
is non-empty) followed by the bare scene text part, and `buildPrompt`
produces the corresponding flat concatenation. -/
theorem buildRequest_hero_scenario (settings : Settings) (d : Descriptions)
    (charAvatar userAvatar : Option AvatarData)
    (h1 : settings.include_descriptions = false) (h2 : settings.use_avatars = false) :
    buildMessages "A hero stands on a cliff" none settings d charAvatar userAvatar =
      [{ role := "user",
         content := (if settings.system_instruction ≠ "" then
             [ContentPart.text settings.system_instruction] else [])
           ++ [ContentPart.text "A hero stands on a cliff"] }] ∧
    buildPrompt "A hero stands on a cliff" none settings d =
      (if settings.system_instruction ≠ "" then settings.system_instruction ++ "\n\n" else "")
        ++ "A hero stands on a cliff" := by
  constructor
  · simp [buildMessages, senderWrapped, h1, h2]
  · simp [buildPrompt, senderWrapped, h1]

/-- Witness for C7: with the concrete settings (system instruction `"SYS"`,
toggles off) the request is exactly the two text parts, regardless of the
fully-populated character context. -/
theorem buildRequest_hero_scenario_witness :
    buildMessages "A hero stands on a cliff" none sampleSettings fullDescriptions none none =
      [{ role := "user",
         content := [ContentPart.text "SYS", ContentPart.text "A hero stands on a cliff"] }] ∧
    buildPrompt "A hero stands on a cliff" none sampleSettings fullDescriptions =
      "SYS\n\nA hero stands on a cliff" :=
  have h := buildRequest_hero_scenario sampleSettings fullDescriptions none none rfl rfl
  ⟨h.1.trans (by decide), h.2.trans (by decide)⟩

/-- Claim C8: when `include_descriptions` is false, the built generation
request is independent of the character/persona context, so it contains no
user-persona, character-description, or character-scenario text; this
holds for both `buildMessages` and `buildPrompt`. -/
theorem includeDescriptions_false_no_character_text (prompt : String)
    (sender : Option String) (settings : Settings) (d d' : Descriptions)
    (ca ua : Option AvatarData) (h : settings.include_descriptions = false) :
    buildMessages prompt sender settings d ca ua =
      buildMessages prompt sender settings d' ca ua ∧
    buildPrompt prompt sender settings d = buildPrompt prompt sender settings d' := by
  constructor
  · simp [buildMessages, h]
  · simp [buildPrompt, h]

/-- Witness for C8: with descriptions disabled, the fully-populated and the
empty character contexts build the same request. -/
theorem includeDescriptions_false_no_character_text_witness :
    buildMessages "P" none sampleSettings fullDescriptions none none =
      buildMessages "P" none sampleSettings emptyDescriptions none none ∧
    buildPrompt "P" none sampleSettings fullDescriptions =
      buildPrompt "P" none sampleSettings emptyDescriptions :=
  includeDescriptions_false_no_character_text "P" none sampleSettings
    fullDescriptions emptyDescriptions none none rfl

/-- Claim C9: in the direct-API variant, a missing (empty) `project_id`
makes the generation call fail with the configuration error before any
HTTP request is issued — the first component of the outcome records that
no request was made, independently of any response. -/
theorem generateDirectApi_missing_project_id (settings : Settings) (response : ResponseBody)
    (h : settings.project_id = "") :
    generateDirectApi settings response = (false, Except.error projectIdRequiredMsg) := by
  simp [generateDirectApi, h]

/-- Witness for C9: with the concrete settings (empty `project_id`) the
direct-API call issues no request and fails with the configuration error. -/
theorem generateDirectApi_missing_project_id_witness :
    generateDirectApi sampleSettings emptyBody =
      (false, Except.error projectIdRequiredMsg) :=
  generateDirectApi_missing_project_id sampleSettings emptyBody rfl

/-- Claim C10: `addToGallery` is total over settings states: when the
gallery field is absent it is initialized to the empty list, so adding from
an uninitialized settings state yields a one-entry gallery with the new
entry at index 0. -/
theorem addToGallery_uninitialized_total (settings : Settings) (imageData prompt : String)
    (messageId : Option Int) (now : Nat) (h : settings.gallery = none) :
    (addToGallery settings imageData prompt messageId now).gallery =
      some [{ imageData := imageData, prompt := prompt.take 200,
              timestamp := now, messageId := messageId }] := by
  simp [addToGallery, h, MAX_GALLERY_SIZE]

set_option maxRecDepth 4000 in
/-- Witness for C10: adding to the concrete uninitialized settings yields
exactly the one new entry. -/
theorem addToGallery_uninitialized_total_witness :
    (addToGallery sampleSettings "IMG" "PROMPT" none 7).gallery =
      some [{ imageData := "IMG", prompt := "PROMPT", timestamp := 7, messageId := none }] :=
  (addToGallery_uninitialized_total sampleSettings "IMG" "PROMPT" none 7 rfl).trans (by decide)
